import Mathlib

/-!
# Verification of the Staged Snippet Promotion Pipeline artifacts

The repository holds five promoted-snippet artifacts (one C file, four C++
files), each a metadata header plus a small program.  This development embeds:

* the artifact corpus (headers: staging id, language, engine, slot position,
  label, content hash, timestamps, spec time, verdict) directly from the files
  under `src/data/snippets/`;
* the small C / C++ programs that form the artifact bodies, as Lean functions;
* the pipeline components that the artifacts are evidence of (content hasher,
  spec verifier, staging state machine, slot allocator, promotion controller),
  which are absent from the repository and are therefore modelled from the
  specification text.
-/

/-- Verdict of spec verification, rendered as `spec_result: PASS|FAIL`
in the artifact headers. -/
inductive Verdict where
  | PASS
  | FAIL
deriving DecidableEq, Repr

/-- Source languages present in the corpus (`language:` header field). -/
inductive Lang where
  | c
  | cpp
deriving DecidableEq, Repr

/-- An ISO-8601 UTC timestamp from an artifact header, split into fields. -/
structure Timestamp where
  year : Nat
  month : Nat
  day : Nat
  hour : Nat
  minute : Nat
  second : Nat
deriving DecidableEq, Repr

/-- Total-seconds encoding of a timestamp, monotone in the field order;
used only to compare corpus timestamps. -/
def Timestamp.toSec (t : Timestamp) : Nat :=
  t.second + 60 * (t.minute + 60 * (t.hour + 24 * (t.day + 31 * (t.month + 12 * t.year))))

/-- One promoted-snippet artifact: the header block fields plus the raw
source body, exactly as in the files under `src/data/snippets/`.
`spec_time` is kept in tenths of a millisecond (the headers print four
decimals of a second). -/
structure Artifact where
  staging_id : String
  language : Lang
  engineCode : String
  position : Nat
  label : String
  code_hash : String
  created : Timestamp
  promoted : Timestamp
  spec_time : Nat
  spec_result : Verdict
  body : String
deriving DecidableEq, Repr

/-- Body of `src/data/snippets/c/stg-a91f714948af.c` (after the header). -/
def bodyCFactorial : String :=
  "#include <stdio.h>\nint fact(int n) \x7b return n<=1 ? 1 : n*fact(n-1); \x7d\nint main() \x7b printf(\"%d\\n\", fact(10)); return 0; \x7d\n"

/-- Body of `src/data/snippets/cpp/stg-4ed52382cd26.cpp` and of
`src/data/snippets/cpp/stg-d381b7e725c2.cpp` (byte-identical bodies). -/
def bodyCppFactorial : String :=
  "#include <iostream>\nint fact(int n) \x7b return n<=1 ? 1 : n*fact(n-1); \x7d\nint main() \x7b std::cout << fact(10) << std::endl; return 0; \x7d\n"

/-- Body of `src/data/snippets/cpp/stg-140412cfe3f2.cpp` and of
`src/data/snippets/cpp/stg-7993cb26af30.cpp` (byte-identical bodies). -/
def bodyCppVectorSum : String :=
  "#include <iostream>\n#include <vector>\n#include <numeric>\nint main() \x7b\n    std::vector<int> v=\x7b1,2,3,4,5\x7d;\n    std::cout << std::accumulate(v.begin(),v.end(),0) << std::endl;\n    return 0;\n\x7d\n"

/-- Artifact `src/data/snippets/c/stg-a91f714948af.c`: C Factorial, slot m2. -/
def stg_a91f714948af : Artifact where
  staging_id := "stg-a91f714948af"
  language := Lang.c
  engineCode := "m"
  position := 2
  label := "Factorial"
  code_hash := "60fb0ca4636f097d"
  created := ⟨2026, 2, 10, 8, 35, 41⟩
  promoted := ⟨2026, 2, 10, 8, 35, 42⟩
  spec_time := 14568
  spec_result := Verdict.PASS
  body := bodyCFactorial

/-- Artifact `src/data/snippets/cpp/stg-4ed52382cd26.cpp`: C++ Factorial, slot g2. -/
def stg_4ed52382cd26 : Artifact where
  staging_id := "stg-4ed52382cd26"
  language := Lang.cpp
  engineCode := "g"
  position := 2
  label := "Factorial"
  code_hash := "e4530f779867c0a1"
  created := ⟨2026, 2, 10, 8, 34, 42⟩
  promoted := ⟨2026, 2, 10, 8, 34, 44⟩
  spec_time := 21560
  spec_result := Verdict.PASS
  body := bodyCppFactorial

/-- Artifact `src/data/snippets/cpp/stg-7993cb26af30.cpp`: C++ Vector Sum, slot g3. -/
def stg_7993cb26af30 : Artifact where
  staging_id := "stg-7993cb26af30"
  language := Lang.cpp
  engineCode := "g"
  position := 3
  label := "Vector Sum"
  code_hash := "c4fb908389ac1c9f"
  created := ⟨2026, 2, 10, 8, 34, 46⟩
  promoted := ⟨2026, 2, 10, 8, 34, 51⟩
  spec_time := 48219
  spec_result := Verdict.PASS
  body := bodyCppVectorSum

/-- Artifact `src/data/snippets/cpp/stg-d381b7e725c2.cpp`: C++ Factorial, slot g5. -/
def stg_d381b7e725c2 : Artifact where
  staging_id := "stg-d381b7e725c2"
  language := Lang.cpp
  engineCode := "g"
  position := 5
  label := "Factorial"
  code_hash := "e4530f779867c0a1"
  created := ⟨2026, 2, 10, 10, 51, 36⟩
  promoted := ⟨2026, 2, 10, 10, 51, 37⟩
  spec_time := 15324
  spec_result := Verdict.PASS
  body := bodyCppFactorial

/-- Artifact `src/data/snippets/cpp/stg-140412cfe3f2.cpp`: C++ Vector Sum, slot g6. -/
def stg_140412cfe3f2 : Artifact where
  staging_id := "stg-140412cfe3f2"
  language := Lang.cpp
  engineCode := "g"
  position := 6
  label := "Vector Sum"
  code_hash := "c4fb908389ac1c9f"
  created := ⟨2026, 2, 10, 10, 51, 39⟩
  promoted := ⟨2026, 2, 10, 10, 51, 41⟩
  spec_time := 18619
  spec_result := Verdict.PASS
  body := bodyCppVectorSum

/-- The whole artifact corpus, in promotion order. -/
def corpus : List Artifact :=
  [stg_4ed52382cd26, stg_7993cb26af30, stg_a91f714948af,
   stg_d381b7e725c2, stg_140412cfe3f2]

/-- The current `(engine, position)` slot of each corpus artifact. -/
def corpusSlots : List (String × Nat) :=
  corpus.map (fun a => (a.engineCode, a.position))

/-- `int fact(int n) { return n<=1 ? 1 : n*fact(n-1); }` from the C artifact
`stg-a91f714948af.c`.  For the corpus input `10` every intermediate value fits
in a 32-bit `int`, so plain `Int` arithmetic agrees with the C semantics. -/
def factC (n : Int) : Int :=
  if n ≤ 1 then 1 else n * factC (n - 1)
termination_by n.toNat
decreasing_by
  omega

/-- `int fact(int n) { return n<=1 ? 1 : n*fact(n-1); }` from the C++ artifact
`stg-4ed52382cd26.cpp` (the same text also appears in `stg-d381b7e725c2.cpp`). -/
def factCpp (n : Int) : Int :=
  if n ≤ 1 then 1 else n * factCpp (n - 1)
termination_by n.toNat
decreasing_by
  omega

/-- Observable behaviour of `main` in `stg-a91f714948af.c`:
`printf("%d\n", fact(10)); return 0;` — the decimal rendering of `fact(10)`
followed by a newline on stdout, and exit status 0. -/
def cFactorialMain : String × Int :=
  (toString (factC 10) ++ "\n", 0)

/-- Observable behaviour of `main` in `stg-4ed52382cd26.cpp`:
`std::cout << fact(10) << std::endl; return 0;`. -/
def cppFactorialMain : String × Int :=
  (toString (factCpp 10) ++ "\n", 0)

/-! ## Spec-modelled pipeline components

Nothing below this point exists under `src/`; the repository ships only the
promotion artifacts.  Each definition is modelled from the specification text
(sections 4.1-4.6) and says so in its doc comment. -/

/-- Split a character stream into lines at newline characters. -/
def splitLines (cs : List Char) : List (List Char) :=
  cs.foldr
    (fun c acc =>
      if c = '\n' then [] :: acc
      else
        match acc with
        | [] => [[c]]
        | l :: ls => (c :: l) :: ls)
    [[]]

/-- A line the promotion pipeline may have injected: a `//` comment line or a
blank line. -/
def isHeaderLine : List Char → Bool
  | '/' :: '/' :: _ => true
  | [] => true
  | _ => false

/-- Rejoin lines with newline characters. -/
def joinLines (ls : List (List Char)) : List Char :=
  List.intercalate ['\n'] ls

/-- Modelled from the spec: normalization of snippet source before hashing
(section 4.1) — the only allowed normalization exhibited is stripping the
pipeline-injected header comment block, i.e. leading `//` comment lines and
blank lines. -/
def normalizeSource (s : String) : String :=
  String.mk (joinLines ((splitLines s.data).dropWhile isHeaderLine))

/-- Language tag mixed into the hash seed, since the dedup key is per
language. -/
def langTag : Lang → Nat
  | Lang.c => 1
  | Lang.cpp => 2

/-- Modelled from the spec: `hash(language, source) -> ContentHash`, a pure,
deterministic, total fingerprint of the normalized source (section 4.1).
Realized as a 64-bit FNV-1a-style fold over the characters of the normalized
source, seeded per language. -/
def contentHash (l : Lang) (s : String) : Nat :=
  (normalizeSource s).data.foldl
    (fun h c => ((h ^^^ c.toNat) * 1099511628211) % (2 ^ 64))
    (14695981039346656037 ^^^ langTag l)

/-- Modelled from the spec: the structured outcome returned by the execution
sandbox (section 4.3). -/
structure ExecutionOutcome where
  stdout : String
  stderr : String
  exit_status : Int
  wall_time : Nat
  timed_out : Bool
deriving DecidableEq, Repr

/-- Modelled from the spec: a declared spec — expected stdout, exit code
and/or time budget (section 4.4). -/
structure SpecExpectation where
  expected_stdout : Option String
  expected_exit : Option Int
  time_budget : Option Nat
deriving DecidableEq, Repr

/-- Exact-match evaluation of the declared assertions of a spec against an
outcome (section 4.4): undeclared assertions hold vacuously. -/
def assertionsHold (o : ExecutionOutcome) (s : SpecExpectation) : Bool :=
  (match s.expected_stdout with
   | none => true
   | some e => o.stdout == e) &&
  (match s.expected_exit with
   | none => true
   | some e => o.exit_status == e) &&
  (match s.time_budget with
   | none => true
   | some b => o.wall_time ≤ b)

/-- Modelled from the spec: `verify(ExecutionOutcome, spec) -> {PASS, FAIL}`
(section 4.4) — a timed-out outcome is always FAIL regardless of other
assertions; otherwise PASS exactly when every declared assertion matches. -/
def verify (o : ExecutionOutcome) (s : SpecExpectation) : Verdict :=
  if o.timed_out then Verdict.FAIL
  else if assertionsHold o s then Verdict.PASS else Verdict.FAIL

/-- States of a StagingRecord (section 3). -/
inductive StState where
  | STAGED
  | RUNNING
  | PASSED
  | FAILED
  | PROMOTED
deriving DecidableEq, Repr

/-- Modelled from the spec: the legal edges of the staging state machine
(section 4.5): STAGED→RUNNING, RUNNING→PASSED, RUNNING→FAILED,
PASSED→PROMOTED; FAILED is terminal. -/
def allowedT : StState → StState → Bool
  | StState.STAGED, StState.RUNNING => true
  | StState.RUNNING, StState.PASSED => true
  | StState.RUNNING, StState.FAILED => true
  | StState.PASSED, StState.PROMOTED => true
  | _, _ => false

/-- Error raised by the Staging Store on an illegal transition
(section 4.5 / section 7). -/
inductive TransError where
  | IllegalTransitionError
deriving DecidableEq, Repr

/-- Modelled from the spec: `transition(staging_id, new_state)` of the
Staging Store, reduced to its per-record state logic — a legal edge moves to
the new state, anything else fails with `IllegalTransitionError` and the
record keeps its current state (section 4.5). -/
def transition (cur new : StState) : Except TransError StState :=
  if allowedT cur new then Except.ok new
  else Except.error TransError.IllegalTransitionError

/-- One legal step of the staging state machine, as a relation. -/
def StepT (s t : StState) : Prop := allowedT s t = true

/-- Reachability along legal transitions (zero or more steps). -/
def ReachT : StState → StState → Prop := Relation.ReflTransGen StepT

/-- First-match association lookup used by the allocator and store models. -/
def assocLookup {α β : Type} [DecidableEq α] (k : α) : List (α × β) → Option β
  | [] => none
  | (k2, v) :: rest => if k2 = k then some v else assocLookup k rest

/-- Error raised when every position of an engine is held by a different
label (section 4.2 / section 7). -/
inductive AllocError where
  | CapacityExceededError
deriving DecidableEq, Repr

/-- Modelled from the spec: per-engine slot-allocator state (sections 4.2 and
9) — the engine's code and fixed capacity, the label→position affinity map,
and the position→current-label occupancy (first match is the current
occupant). -/
structure Allocator where
  engineCode : String
  capacity : Nat
  affinity : List (String × Nat)
  occupied : List (Nat × String)
deriving DecidableEq, Repr

/-- A position is usable for a label when it is free or already owned by the
same label (section 4.2). -/
def freeOrOwned (a : Allocator) (l : String) (p : Nat) : Bool :=
  match assocLookup p a.occupied with
  | none => true
  | some l2 => l2 == l

/-- The lowest unused position within capacity, if any (section 4.2). -/
def lowestFree (a : Allocator) : Option Nat :=
  (List.range a.capacity).find? (fun p => (assocLookup p a.occupied).isNone)

/-- Record a successful claim of position `p` by label `l`: the affinity map
learns `l → p` and `p`'s current occupant becomes `l`. -/
def claim (a : Allocator) (l : String) (p : Nat) : Allocator :=
  { a with affinity := (l, p) :: a.affinity, occupied := (p, l) :: a.occupied }

/-- Modelled from the spec: `allocate_slot(engine, preferred_position?)`
(section 4.2) with the label-to-position affinity policy — the preferred
position is the label's affinity entry; if it is within capacity and
free-or-owned-by-the-same-label it is reused, otherwise the lowest unused
position is assigned; `CapacityExceededError` when no position is usable. -/
def allocate (a : Allocator) (l : String) : Except AllocError (Nat × Allocator) :=
  match assocLookup l a.affinity with
  | some p =>
      if p < a.capacity && freeOrOwned a l p then Except.ok (p, claim a l p)
      else
        match lowestFree a with
        | some q => Except.ok (q, claim a l q)
        | none => Except.error AllocError.CapacityExceededError
  | none =>
      match lowestFree a with
      | some q => Except.ok (q, claim a l q)
      | none => Except.error AllocError.CapacityExceededError

/-- Modelled from the spec: the immutable result of a successful promotion
(section 3), restricted to the fields the claims are about. -/
structure PromotionRecord where
  staging_id : String
  engineCode : String
  position : Nat
  label : String
  spec_result : Verdict
deriving DecidableEq, Repr

/-- Modelled from the spec: the state the Promotion Controller acts on — the
staging records (first match is the current state of a staging id), one
engine's allocator, and the append-only promotion ledger (sections 4.5, 4.6
and 9). -/
structure PipeState where
  records : List (String × StState)
  alloc : Allocator
  promos : List PromotionRecord
deriving DecidableEq, Repr

/-- Modelled from the spec: `run(staging_id)` of the Promotion Controller
(section 4.6), with execution and verification folded into the verdict
argument `v` (the sandbox is external).  A staged record is driven to its
terminal state in one atomic step: on FAIL it is marked FAILED; on PASS a
slot is allocated under the affinity policy and a PromotionRecord with
`spec_result = PASS` is appended, the record becoming PROMOTED; on
`CapacityExceededError` the record is left at PASSED (section 7).  A missing
or non-STAGED record makes `run` a no-op. -/
def run (ps : PipeState) (sid : String) (l : String) (v : Verdict) : PipeState :=
  match assocLookup sid ps.records with
  | none => ps
  | some st =>
      if st = StState.STAGED then
        match v with
        | Verdict.FAIL =>
            { ps with records := (sid, StState.FAILED) :: ps.records }
        | Verdict.PASS =>
            match allocate ps.alloc l with
            | Except.error _ =>
                { ps with records := (sid, StState.PASSED) :: ps.records }
            | Except.ok (p, a2) =>
                { records := (sid, StState.PROMOTED) :: ps.records
                  alloc := a2
                  promos :=
                    { staging_id := sid
                      engineCode := ps.alloc.engineCode
                      position := p
                      label := l
                      spec_result := Verdict.PASS } :: ps.promos }
      else ps

/-- Number of promotion records the ledger holds for a staging id. -/
def promoCount (ps : PipeState) (sid : String) : Nat :=
  (ps.promos.filter (fun r => r.staging_id == sid)).length

/-- The ledger/store consistency invariant: a staging id with a promotion
record is in state PROMOTED and has exactly one record. -/
def PipeInv (ps : PipeState) : Prop :=
  ∀ sid, 0 < promoCount ps sid →
    assocLookup sid ps.records = some StState.PROMOTED ∧ promoCount ps sid = 1

/-- Modelled from the spec: `transition(staging_id, new_state)` at the store
level — look up the record's current state and apply the legal-edge check; on
an illegal transition no updated store is produced, so the record's state is
unchanged (section 4.5). -/
def storeTransition (recs : List (String × StState)) (sid : String) (new : StState) :
    Except TransError (List (String × StState)) :=
  match assocLookup sid recs with
  | none => Except.error TransError.IllegalTransitionError
  | some cur =>
      match transition cur new with
      | Except.ok st => Except.ok ((sid, st) :: recs)
      | Except.error e => Except.error e

/-- The declared spec of the C Factorial snippet: stdout `3628800` plus a
newline, exit status 0. -/
def cFactSpec : SpecExpectation where
  expected_stdout := some "3628800\n"
  expected_exit := some 0
  time_budget := none

/-- The sandbox outcome of running the C Factorial snippet, with stdout and
exit status taken from the embedded program. -/
def cFactOutcome : ExecutionOutcome where
  stdout := cFactorialMain.1
  stderr := ""
  exit_status := cFactorialMain.2
  wall_time := 14568
  timed_out := false

/-- A timed-out outcome whose stdout and exit status nevertheless satisfy
every declared assertion of `cFactSpec`. -/
def timedOutOutcome : ExecutionOutcome where
  stdout := "3628800\n"
  stderr := ""
  exit_status := 0
  wall_time := 99999
  timed_out := true

/-- A fresh allocator for the C++ engine `g` (capacity 8, nothing claimed). -/
def allocG : Allocator where
  engineCode := "g"
  capacity := 8
  affinity := []
  occupied := []

/-- A fresh allocator for the C engine `m` (capacity 8, nothing claimed). -/
def allocM : Allocator where
  engineCode := "m"
  capacity := 8
  affinity := []
  occupied := []

/-- A pipeline state holding one staged record for the C Factorial snippet. -/
def ps0 : PipeState where
  records := [("stg-a91f714948af", StState.STAGED)]
  alloc := allocM
  promos := []

/-- The promotion record `run` produces from `ps0` on a PASS verdict. -/
def rec0 : PromotionRecord where
  staging_id := "stg-a91f714948af"
  engineCode := "m"
  position := 0
  label := "Factorial"
  spec_result := Verdict.PASS

/-! ## Helper lemmas -/

/-- A position returned by `lowestFree` lies within capacity. -/
lemma lowestFree_lt_capacity {a : Allocator} {q : Nat}
    (h : lowestFree a = some q) : q < a.capacity := by
  have hq := List.mem_of_find?_eq_some h
  exact List.mem_range.mp hq

/-- A position returned by `lowestFree` is unoccupied. -/
lemma lowestFree_unoccupied {a : Allocator} {q : Nat}
    (h : lowestFree a = some q) : assocLookup q a.occupied = none := by
  have hq := List.find?_some h
  simpa [Option.isNone_iff_eq_none] using hq

/-- A successful allocation stays within capacity and its resulting state is
the `claim` of the returned position. -/
lemma allocate_ok {a : Allocator} {l : String} {p : Nat} {a2 : Allocator}
    (h : allocate a l = Except.ok (p, a2)) :
    p < a.capacity ∧ a2 = claim a l p := by
  unfold allocate at h
  split at h
  · split at h
    · cases h
      rename_i hc
      have := (Bool.and_eq_true _ _).mp hc
      exact ⟨by simpa using this.1, rfl⟩
    · split at h
      · cases h
        rename_i hlf
        exact ⟨lowestFree_lt_capacity hlf, rfl⟩
      · exact absurd h (by simp)
  · split at h
    · cases h
      rename_i hlf
      exact ⟨lowestFree_lt_capacity hlf, rfl⟩
    · exact absurd h (by simp)

/-- A successful allocation only hands out a position that was free or
already owned by the requesting label. -/
lemma allocate_exclusive {a : Allocator} {l : String} {p : Nat} {a2 : Allocator}
    (h : allocate a l = Except.ok (p, a2)) :
    assocLookup p a.occupied = none ∨ assocLookup p a.occupied = some l := by
  unfold allocate at h
  split at h
  · split at h
    · cases h
      rename_i hc
      have hfo := ((Bool.and_eq_true _ _).mp hc).2
      unfold freeOrOwned at hfo
      rcases hocc : assocLookup p a.occupied with _ | l2 <;> rw [hocc] at hfo
      · exact Or.inl rfl
      · simp at hfo
        subst hfo
        exact Or.inr rfl
    · split at h
      · cases h
        rename_i hlf
        exact Or.inl (lowestFree_unoccupied hlf)
      · exact absurd h (by simp)
  · split at h
    · cases h
      rename_i hlf
      exact Or.inl (lowestFree_unoccupied hlf)
    · exact absurd h (by simp)

/-- After a successful allocation for label `l`, allocating for `l` again
reuses exactly the same position. -/
lemma allocate_reuse {a : Allocator} {l : String} {p : Nat} {a1 : Allocator}
    (h : allocate a l = Except.ok (p, a1)) :
    allocate a1 l = Except.ok (p, claim a1 l p) := by
  obtain ⟨hlt, rfl⟩ := allocate_ok h
  unfold allocate claim
  simp [assocLookup, freeOrOwned, hlt]

/-- One recursion step of the C `fact` above the base case. -/
lemma factC_step (n : Int) (h : 1 < n) : factC n = n * factC (n - 1) := by
  rw [factC, if_neg (by omega)]

/-- Base case of the C `fact`. -/
lemma factC_one : factC 1 = 1 := by
  rw [factC, if_pos (by norm_num : (1 : Int) ≤ 1)]

/-- `fact(10)` of the C artifact computes 10!. -/
lemma factC_eval : factC 10 = 3628800 := by
  norm_num [factC_step, factC_one]

/-- One recursion step of the C++ `fact` above the base case. -/
lemma factCpp_step (n : Int) (h : 1 < n) : factCpp n = n * factCpp (n - 1) := by
  rw [factCpp, if_neg (by omega)]

/-- Base case of the C++ `fact`. -/
lemma factCpp_one : factCpp 1 = 1 := by
  rw [factCpp, if_pos (by norm_num : (1 : Int) ≤ 1)]

/-- `fact(10)` of the C++ artifacts computes 10!. -/
lemma factCpp_eval : factCpp 10 = 3628800 := by
  norm_num [factCpp_step, factCpp_one]

/-- The C and C++ `fact` definitions agree on every input. -/
lemma fact_agree : ∀ n : Int, factC n = factCpp n := by
  have H : ∀ k : Nat, ∀ n : Int, n.toNat ≤ k → factC n = factCpp n := by
    intro k
    induction k with
    | zero =>
      intro n hn
      have h1 : n ≤ 1 := by omega
      rw [factC, factCpp, if_pos h1, if_pos h1]
    | succ k ih =>
      intro n hn
      by_cases h1 : n ≤ 1
      · rw [factC, factCpp, if_pos h1, if_pos h1]
      · rw [factC, factCpp, if_neg h1, if_neg h1, ih (n - 1) (by omega)]
  exact fun n => H n.toNat n le_rfl

/-- Association lookup finds the head entry. -/
lemma assocLookup_cons_self {β : Type} (k : String) (v : β) (rest : List (String × β)) :
    assocLookup k ((k, v) :: rest) = some v := by
  simp [assocLookup]

/-- Association lookup skips a head entry with a different key. -/
lemma assocLookup_cons_ne {β : Type} {k k2 : String} (v : β) (rest : List (String × β))
    (h : k2 ≠ k) : assocLookup k ((k2, v) :: rest) = assocLookup k rest := by
  simp [assocLookup, h]

/-- `run` on an unknown staging id is a no-op. -/
lemma run_of_none {ps : PipeState} {sid l : String} {v : Verdict}
    (h : assocLookup sid ps.records = none) : run ps sid l v = ps := by
  unfold run
  rw [h]

/-- `run` on a staging id that is not in state STAGED is a no-op. -/
lemma run_of_some_ne {ps : PipeState} {sid l : String} {v : Verdict} {st : StState}
    (h : assocLookup sid ps.records = some st) (hst : st ≠ StState.STAGED) :
    run ps sid l v = ps := by
  unfold run
  rw [h]
  simp [hst]

/-- `run` on a staged record with a FAIL verdict marks it FAILED and touches
nothing else. -/
lemma run_staged_fail {ps : PipeState} {sid l : String}
    (h : assocLookup sid ps.records = some StState.STAGED) :
    run ps sid l Verdict.FAIL =
      { ps with records := (sid, StState.FAILED) :: ps.records } := by
  unfold run
  rw [h]
  simp

/-- `run` on a staged record with a PASS verdict but exhausted capacity
leaves the record at PASSED and touches nothing else. -/
lemma run_staged_pass_err {ps : PipeState} {sid l : String} {e : AllocError}
    (h : assocLookup sid ps.records = some StState.STAGED)
    (ha : allocate ps.alloc l = Except.error e) :
    run ps sid l Verdict.PASS =
      { ps with records := (sid, StState.PASSED) :: ps.records } := by
  unfold run
  rw [h]
  simp [ha]

/-- `run` on a staged record with a PASS verdict and a successful allocation
promotes: the record becomes PROMOTED, the allocator advances and one
PromotionRecord with `spec_result = PASS` is appended. -/
lemma run_staged_pass_ok {ps : PipeState} {sid l : String} {p : Nat} {a2 : Allocator}
    (h : assocLookup sid ps.records = some StState.STAGED)
    (ha : allocate ps.alloc l = Except.ok (p, a2)) :
    run ps sid l Verdict.PASS =
      { records := (sid, StState.PROMOTED) :: ps.records
        alloc := a2
        promos :=
          { staging_id := sid
            engineCode := ps.alloc.engineCode
            position := p
            label := l
            spec_result := Verdict.PASS } :: ps.promos } := by
  unfold run
  rw [h]
  simp [ha]

/-- `run` is idempotent on every pipeline state: the second invocation is
always a no-op. -/
lemma run_run (ps : PipeState) (sid l : String) (v : Verdict) :
    run (run ps sid l v) sid l v = run ps sid l v := by
  rcases h : assocLookup sid ps.records with _ | st
  · rw [run_of_none h, run_of_none h]
  · by_cases hst : st = StState.STAGED
    · subst hst
      cases v with
      | FAIL =>
        rw [run_staged_fail h]
        exact run_of_some_ne (assocLookup_cons_self sid _ _) (by decide)
      | PASS =>
        rcases ha : allocate ps.alloc l with e | pa
        · rw [run_staged_pass_err h ha]
          exact run_of_some_ne (assocLookup_cons_self sid _ _) (by decide)
        · obtain ⟨p, a2⟩ := pa
          rw [run_staged_pass_ok h ha]
          exact run_of_some_ne (assocLookup_cons_self sid _ _) (by decide)
    · rw [run_of_some_ne h hst, run_of_some_ne h hst]

/-- `run` preserves the ledger/store consistency invariant: a staging id
keeps at most one promotion record, and only in state PROMOTED. -/
lemma run_preserves_inv (ps : PipeState) (sid l : String) (v : Verdict)
    (hInv : PipeInv ps) : PipeInv (run ps sid l v) := by
  rcases h : assocLookup sid ps.records with _ | st
  · rw [run_of_none h]
    exact hInv
  · by_cases hst : st = StState.STAGED
    · subst hst
      cases v with
      | FAIL =>
        rw [run_staged_fail h]
        intro sid2 hc
        obtain ⟨hlook, hone⟩ := hInv sid2 hc
        by_cases he : sid = sid2
        · subst he
          rw [h] at hlook
          simp at hlook
        · exact ⟨by rw [assocLookup_cons_ne _ _ he]; exact hlook, hone⟩
      | PASS =>
        rcases ha : allocate ps.alloc l with e | pa
        · rw [run_staged_pass_err h ha]
          intro sid2 hc
          obtain ⟨hlook, hone⟩ := hInv sid2 hc
          by_cases he : sid = sid2
          · subst he
            rw [h] at hlook
            simp at hlook
          · exact ⟨by rw [assocLookup_cons_ne _ _ he]; exact hlook, hone⟩
        · obtain ⟨p, a2⟩ := pa
          rw [run_staged_pass_ok h ha]
          intro sid2 hc
          by_cases he : sid = sid2
          · subst he
            have h0 : promoCount ps sid = 0 := by
              by_contra hne
              have hl := (hInv sid (Nat.pos_of_ne_zero hne)).1
              rw [h] at hl
              simp at hl
            refine ⟨assocLookup_cons_self sid _ _, ?_⟩
            simp only [promoCount] at h0 ⊢
            simp [List.filter_cons, h0]
          · have hc2 : 0 < promoCount ps sid2 := by
              simpa [promoCount, List.filter_cons, he] using hc
            obtain ⟨hlook, hone⟩ := hInv sid2 hc2
            refine ⟨by rw [assocLookup_cons_ne _ _ he]; exact hlook, ?_⟩
            simpa [promoCount, List.filter_cons, he] using hone
    · rw [run_of_some_ne h hst]
      exact hInv

/-- On a FAIL verdict `run` never touches the promotion ledger. -/
lemma run_fail_promos (ps : PipeState) (sid l : String) :
    (run ps sid l Verdict.FAIL).promos = ps.promos := by
  rcases h : assocLookup sid ps.records with _ | st
  · rw [run_of_none h]
  · by_cases hst : st = StState.STAGED
    · subst hst
      rw [run_staged_fail h]
    · rw [run_of_some_ne h hst]

/-- Every promotion record `run` appends carries `spec_result = PASS`. -/
lemma run_promos_pass (ps : PipeState) (sid l : String) (v : Verdict)
    (r : PromotionRecord) (hr : r ∈ (run ps sid l v).promos) :
    r ∈ ps.promos ∨ r.spec_result = Verdict.PASS := by
  rcases h : assocLookup sid ps.records with _ | st
  · rw [run_of_none h] at hr
    exact Or.inl hr
  · by_cases hst : st = StState.STAGED
    · subst hst
      cases v with
      | FAIL =>
        rw [run_staged_fail h] at hr
        exact Or.inl hr
      | PASS =>
        rcases ha : allocate ps.alloc l with e | pa
        · rw [run_staged_pass_err h ha] at hr
          exact Or.inl hr
        · obtain ⟨p, a2⟩ := pa
          rw [run_staged_pass_ok h ha] at hr
          rcases List.mem_cons.mp hr with hx | hx
          · exact Or.inr (by rw [hx])
          · exact Or.inl hx
    · rw [run_of_some_ne h hst] at hr
      exact Or.inl hr

/-- No legal path leaves FAILED: along legal transitions, a FAILED record is
FAILED forever. -/
lemma failed_stays_failed : ∀ s : StState, ReachT StState.FAILED s → s = StState.FAILED := by
  intro s h
  induction h with
  | refl => rfl
  | tail hab hbc ih =>
      subst ih
      rename_i c
      cases c <;> simp [StepT, allowedT] at hbc

/-! ## Claim theorems -/

/-- C1 counterexample: the corpus's two successive promotions of label
"Factorial" to engine `g` (`stg-4ed52382cd26.cpp` and
`stg-d381b7e725c2.cpp`) do NOT occupy the same position — their headers show
slot g2 versus slot g5, refuting the claim that both PromotionRecords carry
an identical `(engine, position)` pair. -/
theorem factorial_promotions_distinct_positions :
    stg_4ed52382cd26.label = "Factorial" ∧
    stg_d381b7e725c2.label = "Factorial" ∧
    stg_4ed52382cd26.engineCode = "g" ∧
    stg_d381b7e725c2.engineCode = "g" ∧
    ¬ stg_4ed52382cd26.position = stg_d381b7e725c2.position :=
  ⟨rfl, rfl, rfl, rfl, by decide⟩

/-- C1 (amended): the slot allocator modelled from the spec does reuse the
same position for two successive promotions of the same label (a successful
allocation for `l` makes the next allocation for `l` return the identical
position); but the corpus's two promotions of label "Factorial" to engine
`g` occupy the distinct positions 2 and 5. -/
theorem label_affinity_model_and_corpus :
    (∀ (a : Allocator) (l : String) (p : Nat) (a1 : Allocator),
        allocate a l = Except.ok (p, a1) →
        allocate a1 l = Except.ok (p, claim a1 l p)) ∧
    stg_4ed52382cd26.position = 2 ∧ stg_d381b7e725c2.position = 5 :=
  ⟨fun _ _ _ _ h => allocate_reuse h, rfl, rfl⟩

/-- C1 witness: concrete reuse — after "Factorial" claims position 0 of a
fresh engine-`g` allocator, allocating for "Factorial" again returns
position 0. -/
theorem label_affinity_model_and_corpus_witness :
    allocate (claim allocG "Factorial" 0) "Factorial" =
      Except.ok (0, claim (claim allocG "Factorial" 0) "Factorial" 0) :=
  label_affinity_model_and_corpus.1 allocG "Factorial" 0 (claim allocG "Factorial" 0)
    rfl

/-- C2: the content hasher is deterministic — equal normalized source in the
same language always yields the same ContentHash — and in the corpus the two
byte-identical "Vector Sum" C++ snippets carry the same `code_hash`. -/
theorem hasher_deterministic_and_vector_sum_hashes :
    (∀ (l : Lang) (s1 s2 : String),
        normalizeSource s1 = normalizeSource s2 → contentHash l s1 = contentHash l s2) ∧
    stg_7993cb26af30.language = stg_140412cfe3f2.language ∧
    stg_7993cb26af30.body = stg_140412cfe3f2.body ∧
    stg_7993cb26af30.code_hash = stg_140412cfe3f2.code_hash := by
  refine ⟨?_, rfl, rfl, rfl⟩
  intro l s1 s2 h
  simp only [contentHash, h]

/-- C2 witness: a source with a pipeline-injected header comment hashes the
same as the bare source, by the determinism theorem. -/
theorem hasher_deterministic_and_vector_sum_hashes_witness :
    contentHash Lang.c ("// promoted header\nint x;") = contentHash Lang.c "int x;" :=
  hasher_deterministic_and_vector_sum_hashes.1 Lang.c ("// promoted header\nint x;")
    "int x;" (by decide)

/-- C3: the C Factorial snippet end to end — `fact(10)` evaluates to 3628800,
the program prints exactly `3628800` followed by a newline and exits with
status 0, the verifier passes that outcome against the declared spec, and the
corpus promotion record sits at slot m2 with `spec_result = PASS`. -/
theorem c_factorial_end_to_end :
    factC 10 = 3628800 ∧
    cFactorialMain = ("3628800\n", 0) ∧
    verify cFactOutcome cFactSpec = Verdict.PASS ∧
    stg_a91f714948af.engineCode = "m" ∧
    stg_a91f714948af.position = 2 ∧
    stg_a91f714948af.spec_result = Verdict.PASS := by
  have hmain : cFactorialMain = ("3628800\n", 0) := by
    rw [cFactorialMain, factC_eval]
    rfl
  refine ⟨factC_eval, hmain, ?_, rfl, rfl, rfl⟩
  simp [verify, assertionsHold, cFactOutcome, cFactSpec, hmain]

/-- C4: slot mutual exclusion — a successful allocation only ever hands out a
position that is currently free or already owned by the same label, so no two
different labels can hold one position at once; and in the corpus all five
current `(engine, position)` pairs (m2, g2, g3, g5, g6) are pairwise
distinct. -/
theorem slot_mutual_exclusion :
    (∀ (a : Allocator) (l : String) (p : Nat) (a2 : Allocator),
        allocate a l = Except.ok (p, a2) →
        assocLookup p a.occupied = none ∨ assocLookup p a.occupied = some l) ∧
    corpusSlots.Nodup :=
  ⟨fun _ _ _ _ h => allocate_exclusive h, by decide⟩

/-- C4 witness: the first allocation on a fresh engine-`g` allocator hands
out position 0, which is free. -/
theorem slot_mutual_exclusion_witness :
    assocLookup 0 allocG.occupied = none ∨ assocLookup 0 allocG.occupied = some "Vector Sum" :=
  slot_mutual_exclusion.1 allocG "Vector Sum" 0 (claim allocG "Vector Sum" 0) rfl

/-- C5: a timed-out execution outcome is always verified FAIL, whatever the
other declared assertions say. -/
theorem timeout_always_fails (o : ExecutionOutcome) (s : SpecExpectation)
    (h : o.timed_out = true) : verify o s = Verdict.FAIL := by
  simp [verify, h]

/-- C5 witness: a timed-out outcome whose stdout and exit status satisfy
every declared assertion of the spec is still FAIL. -/
theorem timeout_always_fails_witness :
    assertionsHold timedOutOutcome cFactSpec = true ∧
    timedOutOutcome.timed_out = true ∧
    verify timedOutOutcome cFactSpec = Verdict.FAIL :=
  ⟨by decide, rfl, timeout_always_fails timedOutOutcome cFactSpec rfl⟩

/-- C6: `run` is idempotent — a second invocation on any state (in
particular on an already-terminal staging id) is a no-op returning the same
state without re-executing — and it preserves the ledger invariant that every
staging id has at most one PromotionRecord. -/
theorem run_idempotent_unique_promotion :
    (∀ (ps : PipeState) (sid l : String) (v : Verdict),
        run (run ps sid l v) sid l v = run ps sid l v) ∧
    (∀ (ps : PipeState) (sid l : String) (v : Verdict),
        PipeInv ps → PipeInv (run ps sid l v)) :=
  ⟨run_run, run_preserves_inv⟩

/-- C6 witness: running the staged C Factorial record twice equals running it
once, and the resulting state still satisfies the one-record invariant. -/
theorem run_idempotent_unique_promotion_witness :
    run (run ps0 "stg-a91f714948af" "Factorial" Verdict.PASS)
        "stg-a91f714948af" "Factorial" Verdict.PASS =
      run ps0 "stg-a91f714948af" "Factorial" Verdict.PASS ∧
    PipeInv (run ps0 "stg-a91f714948af" "Factorial" Verdict.PASS) :=
  ⟨run_idempotent_unique_promotion.1 ps0 "stg-a91f714948af" "Factorial" Verdict.PASS,
   run_idempotent_unique_promotion.2 ps0 "stg-a91f714948af" "Factorial" Verdict.PASS
     (fun sid h => absurd h (by simp [promoCount, ps0]))⟩

/-- C7: the staging state machine — transitions outside the legal edges
STAGED→RUNNING→{PASSED,FAILED}, PASSED→PROMOTED fail with
`IllegalTransitionError`; FAILED→PROMOTED in particular fails, at the store
level no updated store is produced so the record's state is unchanged; and no
sequence of legal transitions ever takes FAILED anywhere else. -/
theorem staging_state_machine :
    (∀ cur new : StState, allowedT cur new = false →
        transition cur new = Except.error TransError.IllegalTransitionError) ∧
    transition StState.FAILED StState.PROMOTED =
      Except.error TransError.IllegalTransitionError ∧
    (∀ (recs : List (String × StState)) (sid : String) (new st : StState),
        assocLookup sid recs = some st → allowedT st new = false →
        storeTransition recs sid new =
          Except.error TransError.IllegalTransitionError) ∧
    (∀ s : StState, ReachT StState.FAILED s → s = StState.FAILED) := by
  have hedge : ∀ cur new : StState, allowedT cur new = false →
      transition cur new = Except.error TransError.IllegalTransitionError := by
    intro cur new h
    rw [transition, if_neg (by simp [h])]
  refine ⟨hedge, rfl, ?_, failed_stays_failed⟩
  intro recs sid new st hlook hall
  unfold storeTransition
  rw [hlook]
  simp [hedge st new hall]

/-- C7 witness: applying FAILED→PROMOTED to a store holding a FAILED record
fails with `IllegalTransitionError`. -/
theorem staging_state_machine_witness :
    storeTransition [("stg-a91f714948af", StState.FAILED)] "stg-a91f714948af"
        StState.PROMOTED =
      Except.error TransError.IllegalTransitionError :=
  staging_state_machine.2.2.1 [("stg-a91f714948af", StState.FAILED)]
    "stg-a91f714948af" StState.PROMOTED StState.FAILED (by decide) rfl

/-- C8: every PromotionRecord carries `spec_result = PASS` — a run only ever
appends PASS records and a FAIL verdict appends nothing — and all five corpus
artifacts show `spec_result: PASS`. -/
theorem promotion_records_pass :
    (∀ (ps : PipeState) (sid l : String) (v : Verdict) (r : PromotionRecord),
        r ∈ (run ps sid l v).promos → r ∈ ps.promos ∨ r.spec_result = Verdict.PASS) ∧
    (∀ (ps : PipeState) (sid l : String), (run ps sid l Verdict.FAIL).promos = ps.promos) ∧
    corpus.all (fun a => a.spec_result == Verdict.PASS) = true :=
  ⟨run_promos_pass, run_fail_promos, by decide⟩

/-- C8 witness: the record produced by promoting the staged C Factorial
snippet carries `spec_result = PASS`. -/
theorem promotion_records_pass_witness :
    rec0 ∈ ps0.promos ∨ rec0.spec_result = Verdict.PASS :=
  promotion_records_pass.1 ps0 "stg-a91f714948af" "Factorial" Verdict.PASS rec0
    (by decide)

/-- C9: in every corpus artifact the promoted timestamp is strictly later
than the created timestamp, by one to five seconds. -/
theorem promoted_after_created :
    corpus.all
      (fun a =>
        decide (a.created.toSec < a.promoted.toSec) &&
        decide (1 ≤ a.promoted.toSec - a.created.toSec) &&
        decide (a.promoted.toSec - a.created.toSec ≤ 5)) = true := by
  decide

/-- C10: the C and C++ Factorial snippets are observationally equivalent —
their `fact` definitions agree on every input, both programs print `3628800`
plus a newline and exit 0 — while their content hashes and engines differ. -/
theorem factorial_observational_equivalence :
    (∀ n : Int, factC n = factCpp n) ∧
    cFactorialMain = ("3628800\n", 0) ∧
    cppFactorialMain = ("3628800\n", 0) ∧
    stg_a91f714948af.code_hash ≠ stg_4ed52382cd26.code_hash ∧
    stg_a91f714948af.engineCode ≠ stg_4ed52382cd26.engineCode := by
  refine ⟨fact_agree, ?_, ?_, by decide, by decide⟩
  · rw [cFactorialMain, factC_eval]
    rfl
  · rw [cppFactorialMain, factCpp_eval]
    rfl
